import Mathlib

/-!
Verification development for the bubble-couple authoritative game server.

The definitions below are a shallow embedding of the TypeScript source:

* pixel positions, speeds and millisecond timers (JS doubles) are modelled
  as rationals;
* grid coordinates are integers, tile values are naturals
  (0 = EMPTY, 1 = WALL_HARD, 2 = WALL_SOFT);
* the flattened `ArraySchema<number>` grid is a `List Nat` indexed by
  `gy * GRID_W + gx`;
* in-place mutation of schema objects becomes explicit state passing;
* `Math.random()` draws are abstracted into explicit parameters.

Server-side definitions follow `src/server/src/utils/gameLogic.ts` and
`src/server/src/utils/constants.ts`; the local single-process engine
(`MovementSystem`) follows its own module, with its own constants.
-/

set_option maxRecDepth 8000

namespace Bubble

/-! ### Constants (src/server/src/utils/constants.ts) -/

def GRID_W : Int := 15
def GRID_H : Int := 13
def TILE_SIZE : ℚ := 48
def PLAYER_SIZE : ℚ := 36
def BASE_SPEED : ℚ := 3/2
def MAX_SPEED : ℚ := 6
def BOMB_SLIDE_SPEED : ℚ := 6
def CORNER_TOLERANCE : ℚ := 15
def BOMB_TIMER_MS : ℚ := 3000
def EXPLOSION_DURATION_MS : ℚ := 600
def TRAPPED_DURATION_MS : ℚ := 5000
def INVINCIBLE_DURATION_MS : ℚ := 2000
def GHOST_DURATION_MS : ℚ := 10000

/-- TileType.EMPTY -/
def tEMPTY : Nat := 0
/-- TileType.WALL_HARD -/
def tWALL_HARD : Nat := 1
/-- TileType.WALL_SOFT -/
def tWALL_SOFT : Nat := 2

/-! ### Schema records (src/server/src/rooms/schema) -/

structure Player where
  id : Int
  x : ℚ
  y : ℚ
  color : String
  state : String
  direction : String
  speed : ℚ
  bombRange : Nat
  maxBombs : Nat
  activeBombs : Nat
  score : Nat
  canKick : Bool
  hasShield : Bool
  ghostTimer : ℚ
  trappedTimer : ℚ
  invincibleTimer : ℚ
deriving Repr, DecidableEq

structure Bomb where
  id : String
  ownerId : Int
  gridX : Int
  gridY : Int
  x : ℚ
  y : ℚ
  vx : ℚ
  vy : ℚ
  range : Nat
  timer : ℚ
deriving Repr, DecidableEq

/-- BombSchema constructor: position snaps to the grid cell, velocity 0,
fuse `BOMB_TIMER_MS`. The random `generateId()` string is passed in. -/
def mkBombSchema (id : String) (ownerId : Int) (gridX gridY : Int) (range : Nat) : Bomb :=
  { id := id, ownerId := ownerId, gridX := gridX, gridY := gridY,
    x := (gridX : ℚ) * TILE_SIZE, y := (gridY : ℚ) * TILE_SIZE,
    vx := 0, vy := 0, range := range, timer := BOMB_TIMER_MS }

structure Explosion where
  ownerId : Int
  gridX : Int
  gridY : Int
  timer : ℚ
deriving Repr, DecidableEq

/-- ExplosionSchema constructor (the random id string is dropped from the
model: no game logic reads it). -/
def mkExplosion (ownerId : Int) (gridX gridY : Int) : Explosion :=
  { ownerId := ownerId, gridX := gridX, gridY := gridY, timer := EXPLOSION_DURATION_MS }

structure Item where
  id : String
  gridX : Int
  gridY : Int
  itemType : Nat
deriving Repr, DecidableEq

structure PlayerInput where
  up : Bool
  down : Bool
  left : Bool
  right : Bool
deriving Repr, DecidableEq

/-! ### Coordinate helpers (gameLogic.ts) -/

/-- getPixelCoords: top-left pixel of the hitbox centred in a tile. -/
def getPixelCoords (gridX gridY : Int) : ℚ × ℚ :=
  ((gridX : ℚ) * TILE_SIZE + (TILE_SIZE - PLAYER_SIZE) / 2,
   (gridY : ℚ) * TILE_SIZE + (TILE_SIZE - PLAYER_SIZE) / 2)

/-- getGridCoords: grid cell of the hitbox centre. -/
def getGridCoords (pixelX pixelY : ℚ) : Int × Int :=
  (Rat.floor ((pixelX + PLAYER_SIZE / 2) / TILE_SIZE),
   Rat.floor ((pixelY + PLAYER_SIZE / 2) / TILE_SIZE))

/-- isColliding: AABB overlap between a PLAYER_SIZE hitbox and a tile. -/
def isColliding (px py : ℚ) (gridX gridY : Int) : Bool :=
  let tileX := (gridX : ℚ) * TILE_SIZE
  let tileY := (gridY : ℚ) * TILE_SIZE
  decide (px < tileX + TILE_SIZE ∧ tileX < px + PLAYER_SIZE ∧
          py < tileY + TILE_SIZE ∧ tileY < py + PLAYER_SIZE)

/-- checkEntityCollision with the default size PLAYER_SIZE. -/
def checkEntityCollision (x1 y1 x2 y2 : ℚ) : Bool :=
  decide (x1 < x2 + PLAYER_SIZE ∧ x2 < x1 + PLAYER_SIZE ∧
          y1 < y2 + PLAYER_SIZE ∧ y2 < y1 + PLAYER_SIZE)

/-! ### Flattened grid access -/

def gridIdx (gx gy : Int) : Nat := (gy * GRID_W + gx).toNat

/-- grid[gy * GRID_W + gx] (callers bounds-check first, as the source does). -/
def gridGet (grid : List Nat) (gx gy : Int) : Nat :=
  grid.getD (gridIdx gx gy) 0

/-- grid[gy * GRID_W + gx] = v -/
def gridSet (grid : List Nat) (gx gy : Int) (v : Nat) : List Nat :=
  grid.set (gridIdx gx gy) v

/-! ### isEntityBlocked (gameLogic.ts lines 119-151) -/

/-- The four hitbox corners with the 0.1 px epsilon shrink. -/
def cornersOf (nx ny : ℚ) : List (ℚ × ℚ) :=
  let epsilon : ℚ := 1/10
  [(nx, ny),
   (nx + PLAYER_SIZE - epsilon, ny),
   (nx, ny + PLAYER_SIZE - epsilon),
   (nx + PLAYER_SIZE - epsilon, ny + PLAYER_SIZE - epsilon)]

/-- One corner of the server-side blocking test. -/
def cornerBlocked (grid : List Nat) (bombs : List Bomb) (ghostMode : Bool)
    (c : ℚ × ℚ) : Bool :=
  let gx := Rat.floor (c.1 / TILE_SIZE)
  let gy := Rat.floor (c.2 / TILE_SIZE)
  if gx < 0 ∨ GRID_W ≤ gx ∨ gy < 0 ∨ GRID_H ≤ gy then true
  else
    let tile := gridGet grid gx gy
    if tile = tWALL_HARD then true
    else if tile = tWALL_SOFT ∧ ¬ghostMode then true
    else if ¬ghostMode ∧ bombs.any (fun b => decide (b.gridX = gx ∧ b.gridY = gy)) then true
    else false

/-- isEntityBlocked: any of the four corners is blocked. -/
def isEntityBlocked (nx ny : ℚ) (grid : List Nat) (bombs : List Bomb)
    (ghostMode : Bool) : Bool :=
  (cornersOf nx ny).any (cornerBlocked grid bombs ghostMode)

/-! ### movePlayer (gameLogic.ts lines 186-251), split by axis exactly as the
source is: the X phase may corner-slide on Y, then the Y phase runs from the
(possibly nudged) `(newX, newY)` pair but always tests `currentY + dy`. -/

/-- X-axis phase of movePlayer: returns (newX, newY). -/
def moveXAxis (speed : ℚ) (ghostMode : Bool) (grid : List Nat) (bombs : List Bomb)
    (currentX currentY dx : ℚ) : ℚ × ℚ :=
  if dx ≠ 0 then
    if ¬ (isEntityBlocked (currentX + dx) currentY grid bombs ghostMode = true) then
      (currentX + dx, currentY)
    else
      let centerY := currentY + PLAYER_SIZE / 2
      let tileY := Rat.floor (centerY / TILE_SIZE)
      let tileCenterY := (tileY : ℚ) * TILE_SIZE + TILE_SIZE / 2
      let diff := centerY - tileCenterY
      if |diff| ≤ CORNER_TOLERANCE ∧ 0 < |diff| then
        let dir : ℚ := if 0 < diff then -1 else 1
        let correction := dir * speed
        if ¬ (isEntityBlocked currentX (currentY + correction) grid bombs ghostMode = true) then
          (currentX, currentY + correction)
        else (currentX, currentY)
      else (currentX, currentY)
  else (currentX, currentY)

/-- Y-axis phase of movePlayer: takes the X-phase output (newX, newY) and the
original currentY; returns the final (newX, newY). -/
def moveYAxis (speed : ℚ) (ghostMode : Bool) (grid : List Nat) (bombs : List Bomb)
    (newX currentY newY dy : ℚ) : ℚ × ℚ :=
  if dy ≠ 0 then
    if ¬ (isEntityBlocked newX (currentY + dy) grid bombs ghostMode = true) then
      (newX, currentY + dy)
    else
      let centerX := newX + PLAYER_SIZE / 2
      let tileX := Rat.floor (centerX / TILE_SIZE)
      let tileCenterX := (tileX : ℚ) * TILE_SIZE + TILE_SIZE / 2
      let diff := centerX - tileCenterX
      if |diff| ≤ CORNER_TOLERANCE ∧ 0 < |diff| then
        let dir : ℚ := if 0 < diff then -1 else 1
        let correction := dir * speed
        if ¬ (isEntityBlocked (newX + correction) currentY grid bombs ghostMode = true) then
          (newX + correction, newY)
        else (newX, newY)
      else (newX, newY)
  else (newX, newY)

structure MoveResult where
  x : ℚ
  y : ℚ
  direction : String
deriving Repr, DecidableEq

/-- movePlayer: collision-checked movement with corner sliding. -/
def movePlayer (player : Player) (dx dy : ℚ) (grid : List Nat) (bombs : List Bomb)
    (currentX currentY : ℚ) : MoveResult :=
  let ghostMode := decide (0 < player.ghostTimer)
  let p1 := moveXAxis player.speed ghostMode grid bombs currentX currentY dx
  let p2 := moveYAxis player.speed ghostMode grid bombs p1.1 currentY p1.2 dy
  let direction :=
    if dy < 0 then "UP"
    else if 0 < dy then "DOWN"
    else if dx < 0 then "LEFT"
    else if 0 < dx then "RIGHT"
    else player.direction
  { x := p2.1, y := p2.2, direction := direction }

/-! ### applyItemEffect (gameLogic.ts lines 301-322) -/

def applyItemEffect (p : Player) (itemType : Nat) : Player :=
  if itemType = 1 then { p with bombRange := min (p.bombRange + 1) 8 }
  else if itemType = 2 then { p with maxBombs := min (p.maxBombs + 1) 8 }
  else if itemType = 3 then { p with speed := min (p.speed + 1) MAX_SPEED }
  else if itemType = 4 then { p with canKick := true }
  else if itemType = 5 then { p with ghostTimer := GHOST_DURATION_MS }
  else if itemType = 6 then { p with hasShield := true }
  else p

/-! ### damagePlayer (BubbleRoom, gameLogic.ts lines 1038-1052) -/

def damagePlayer (p : Player) : Player :=
  if p.hasShield then
    { p with hasShield := false, invincibleTimer := 1000 }
  else if p.state = "NORMAL" then
    { p with state := "TRAPPED", trappedTimer := TRAPPED_DURATION_MS, invincibleTimer := 1000 }
  else if p.state = "TRAPPED" ∧ p.invincibleTimer ≤ 0 then
    { p with state := "DEAD" }
  else p

/-- Modelled from the spec (§4.4 Combat Resolver, the `hurt` funnel, with
C4's reading of "not currently invincible"): shield absorbs and grants
1000 ms invincibility leaving the life-state unchanged; otherwise NORMAL
becomes TRAPPED for 5000 ms with 1000 ms invincibility; otherwise a TRAPPED
player whose invincibleTimer is not positive becomes DEAD. -/
def hurtSpec (p : Player) : Player :=
  if p.hasShield then
    { p with hasShield := false, invincibleTimer := 1000 }
  else if p.state = "NORMAL" then
    { p with state := "TRAPPED", trappedTimer := 5000, invincibleTimer := 1000 }
  else if p.state = "TRAPPED" ∧ ¬ (0 < p.invincibleTimer) then
    { p with state := "DEAD" }
  else p

/-! ### triggerExplosion (gameLogic.ts lines 254-298)

The source recursion mutates `state.grid`, `state.bombs` and the local
`newExplosions` array; `ExplState` carries those three. The extra
`detonated` field is instrumentation only: it records, in call order, the id
of every bomb `triggerExplosion` is entered on; nothing in the model reads it.

`findIndex` + `splice(i, 1)` on the live bomb list is modelled by
`extractFirst`, which removes the first matching element in place. -/

structure ExplState where
  grid : List Nat
  bombs : List Bomb
  newExplosions : List Explosion
  detonated : List String
deriving Repr, DecidableEq

/-- Remove the first element satisfying `p`, returning it and the remainder
in the original order (findIndex + splice). -/
def extractFirst {α : Type} (p : α → Bool) : List α → Option (α × List α)
  | [] => none
  | b :: bs =>
    if p b then some (b, bs)
    else (extractFirst p bs).map (fun r => (r.1, b :: r.2))

/-- Replace the first element satisfying `p` by `f` of it (in-place mutation
of the object returned by `find`). -/
def updateFirst {α : Type} (p : α → Bool) (f : α → α) : List α → List α
  | [] => []
  | b :: bs => if p b then f b :: bs else b :: updateFirst p f bs

/-- Append one explosion cell. -/
def pushExpl (ownerId : Int) (gx gy : Int) (st : ExplState) : ExplState :=
  { st with newExplosions := st.newExplosions ++ [mkExplosion ownerId gx gy] }

/-- The per-direction ray loop of triggerExplosion (`for i = 1..range`):
stop outside the grid or at a HARD wall; at a SOFT wall set the tile to
EMPTY, emit an explosion cell there and stop; otherwise chain-detonate any
bomb on the cell through `chain` (removing it from the live list first),
then emit an explosion cell and step outward. `i` is the current step index
and `steps` the number of iterations left. -/
def rayGo (chain : Bomb → ExplState → ExplState) (bomb : Bomb) (dx dy : Int) :
    Int → Nat → ExplState → ExplState
  | _, 0, st => st
  | i, steps + 1, st =>
    let tx := bomb.gridX + dx * i
    let ty := bomb.gridY + dy * i
    if tx < 0 ∨ GRID_W ≤ tx ∨ ty < 0 ∨ GRID_H ≤ ty then st
    else
      let tile := gridGet st.grid tx ty
      if tile = tWALL_HARD then st
      else if tile = tWALL_SOFT then
        pushExpl bomb.ownerId tx ty { st with grid := gridSet st.grid tx ty tEMPTY }
      else
        let st1 :=
          match extractFirst (fun b => decide (b.gridX = tx ∧ b.gridY = ty)) st.bombs with
          | some r => chain r.1 { st with bombs := r.2 }
          | none => st
        rayGo chain bomb dx dy (i + 1) steps (pushExpl bomb.ownerId tx ty st1)

/-- One entry of the triggerExplosion recursion: emit the centre cell, then
walk the four rays (up, down, left, right, in source order), chaining into
`explodeGo f`. The fuel only bounds the chain depth; each chain entry
removes one bomb from the live list first, so fuel `st.bombs.length + 1`
can never run out. -/
def explodeGo : Nat → Bomb → ExplState → ExplState
  | 0, _, st => st
  | f + 1, bomb, st =>
    let st1 := pushExpl bomb.ownerId bomb.gridX bomb.gridY
      { st with detonated := st.detonated ++ [bomb.id] }
    let st2 := rayGo (explodeGo f) bomb 0 (-1) 1 bomb.range st1
    let st3 := rayGo (explodeGo f) bomb 0 1 1 bomb.range st2
    let st4 := rayGo (explodeGo f) bomb (-1) 0 1 bomb.range st3
    rayGo (explodeGo f) bomb 1 0 1 bomb.range st4

/-- triggerExplosion as called by the room: the fuel `bombs.length + 1`
covers the deepest possible chain (each chain entry removes one live bomb
before recursing). -/
def triggerExplosion (bomb : Bomb) (st : ExplState) : ExplState :=
  explodeGo (st.bombs.length + 1) bomb st

/-! ### Room state, handleInput, handleBomb (BubbleRoom) -/

structure RoomState where
  phase : String
  gameMode : String
  players : List (String × Player)
  bombs : List Bomb
  explosions : List Explosion
  enemiesCount : Nat
  grid : List Nat
  items : List Item
deriving Repr, DecidableEq

/-- A BubbleRoom: the synchronized state plus the per-session input map
(`playerInputs`), which lives on the room object, not in the state. -/
structure Room where
  state : RoomState
  playerInputs : List (String × PlayerInput)
deriving Repr, DecidableEq

/-- handleInput (gameLogic.ts lines 492-502): ignored unless the phase is
PLAYING; otherwise the stored input of that session is overwritten. -/
def handleInput (sessionId : String) (data : PlayerInput) (room : Room) : Room :=
  if room.state.phase ≠ "PLAYING" then room
  else
    { room with playerInputs :=
        room.playerInputs.map (fun kv => if kv.1 = sessionId then (kv.1, data) else kv) }

/-- handleBomb (gameLogic.ts lines 505-532). The random bomb id is passed
in as `newId`. -/
def handleBomb (newId : String) (sessionId : String) (room : Room) : Room :=
  if room.state.phase ≠ "PLAYING" then room
  else
    match (room.state.players.find? (fun kv => kv.1 = sessionId)) with
    | none => room
    | some kv =>
      let player := kv.2
      if player.state ≠ "NORMAL" then room
      else if player.maxBombs ≤ player.activeBombs then room
      else
        let g := getGridCoords player.x player.y
        if room.state.bombs.any (fun b => decide (b.gridX = g.1 ∧ b.gridY = g.2)) then room
        else
          let bomb := mkBombSchema newId player.id g.1 g.2 player.bombRange
          { room with state :=
              { room.state with
                bombs := room.state.bombs ++ [bomb],
                players := room.state.players.map (fun kv2 =>
                  if kv2.1 = sessionId then
                    (kv2.1, { kv2.2 with activeBombs := kv2.2.activeBombs + 1 })
                  else kv2) } }

/-! ### updateBombs (BubbleRoom, gameLogic.ts lines 753-816) -/

/-- One iteration of the sliding/fuse pass for the bomb at index `idx`.
`b !== bomb` (reference inequality) in the other-bomb scan is modelled by
index inequality; the scan runs over the partially updated list, as the
in-place forEach does. -/
def slideFuseStep (grid : List Nat) (timeFactor dt : ℚ) (bombs : List Bomb)
    (idx : Nat) : List Bomb :=
  match bombs.get? idx with
  | none => bombs
  | some bomb =>
    let bomb1 :=
      if bomb.vx ≠ 0 ∨ bomb.vy ≠ 0 then
        let nextX := bomb.x + bomb.vx * timeFactor
        let nextY := bomb.y + bomb.vy * timeFactor
        let centerX := nextX + TILE_SIZE / 2
        let centerY := nextY + TILE_SIZE / 2
        let gx := Rat.floor (centerX / TILE_SIZE)
        let gy := Rat.floor (centerY / TILE_SIZE)
        let blocked :=
          if gx < 0 ∨ GRID_W ≤ gx ∨ gy < 0 ∨ GRID_H ≤ gy then true
          else if gridGet grid gx gy ≠ tEMPTY then true
          else bombs.enum.any (fun pr =>
            decide (pr.1 ≠ idx ∧ pr.2.gridX = gx ∧ pr.2.gridY = gy))
        if blocked then
          { bomb with
            vx := 0
            vy := 0
            x := (bomb.gridX : ℚ) * TILE_SIZE
            y := (bomb.gridY : ℚ) * TILE_SIZE }
        else
          { bomb with x := nextX, y := nextY, gridX := gx, gridY := gy }
      else bomb
    bombs.set idx { bomb1 with timer := bomb1.timer - dt }

/-- The first forEach of updateBombs: sliding physics and fuse decrement,
in list order. -/
def slideFusePass (grid : List Nat) (timeFactor dt : ℚ) (bombs : List Bomb) : List Bomb :=
  (List.range bombs.length).foldl (slideFuseStep grid timeFactor dt) bombs

/-- Owner bookkeeping of a normally expired bomb:
`activeBombs = max 0 (activeBombs - 1)` for every player whose id matches. -/
def decrementOwner (ownerId : Int) (players : List (String × Player)) :
    List (String × Player) :=
  players.map (fun kv =>
    if kv.2.id = ownerId then (kv.1, { kv.2 with activeBombs := kv.2.activeBombs - 1 })
    else kv)

/-- Detonation pass of updateBombs: for each bomb collected with fuse ≤ 0,
if it is still in the live list (`indexOf`, modelled by id because every id
is unique), splice it out, decrement its owner and run triggerExplosion. -/
def detonatePass (exploded : List Bomb) (es : ExplState)
    (players : List (String × Player)) : ExplState × List (String × Player) :=
  exploded.foldl
    (fun acc bomb =>
      match extractFirst (fun b => b.id == bomb.id) acc.1.bombs with
      | none => acc
      | some (_, rest) =>
        (triggerExplosion bomb { acc.1 with bombs := rest },
         decrementOwner bomb.ownerId acc.2))
    (es, players)

/-- updateBombs: sliding + fuse pass, then detonation of expired bombs,
then the new explosion cells are appended to the room's explosion list. -/
def updateBombs (dt timeFactor : ℚ) (st : RoomState) : RoomState :=
  let bombs1 := slideFusePass st.grid timeFactor dt st.bombs
  let exploded := bombs1.filter (fun b => decide (b.timer ≤ 0))
  let init : ExplState :=
    { grid := st.grid, bombs := bombs1, newExplosions := [], detonated := [] }
  let res := detonatePass exploded init st.players
  { st with grid := res.1.grid, bombs := res.1.bombs, players := res.2,
            explosions := st.explosions ++ res.1.newExplosions }

/-! ### Server per-player update (BubbleRoom.updatePlayers, gameLogic.ts
lines 694-733, with checkItemPickup, lines 736-750).

The body of `updatePlayers` only reads `state.bombs` (it hands them to
`movePlayer` for collision checks and never writes them), so the returned
bomb list is the input list; it is part of the result so that claims about
bomb velocities across the server movement step can be stated. -/

def checkItemPickup (p : Player) (items : List Item) : Player × List Item :=
  let g := getGridCoords p.x p.y
  match extractFirst (fun it => decide (it.gridX = g.1 ∧ it.gridY = g.2)) items with
  | some r => (applyItemEffect p r.1.itemType, r.2)
  | none => (p, items)

def updatePlayerServer (input : Option PlayerInput) (grid : List Nat)
    (bombs : List Bomb) (items : List Item) (dt timeFactor : ℚ) (p0 : Player) :
    Player × List Item :=
  if p0.state = "DEAD" then (p0, items)
  else
    let p1 := if 0 < p0.ghostTimer then { p0 with ghostTimer := p0.ghostTimer - dt } else p0
    let p2 := if 0 < p1.invincibleTimer then
                { p1 with invincibleTimer := p1.invincibleTimer - dt } else p1
    if p2.state = "TRAPPED" then
      let p3 := { p2 with trappedTimer := p2.trappedTimer - dt }
      let p4 := if p3.trappedTimer ≤ 0 then { p3 with state := "DEAD" } else p3
      (p4, items)
    else
      match input with
      | none => (p2, items)
      | some inp =>
        let effectiveSpeed := p2.speed * timeFactor
        let dx := if inp.right then effectiveSpeed else if inp.left then -effectiveSpeed else 0
        let dy := if inp.down then effectiveSpeed else if inp.up then -effectiveSpeed else 0
        if dx ≠ 0 ∨ dy ≠ 0 then
          let r := movePlayer p2 dx dy grid bombs p2.x p2.y
          let p3 := { p2 with x := r.x, y := r.y, direction := r.direction }
          checkItemPickup p3 items
        else (p2, items)

/-- The full per-player effect of one server tick on the shared state: the
player and item list as computed by `updatePlayerServer`, and the room's
bomb list, which this code path only reads (`movePlayer` takes it for
collision tests; no statement in updatePlayers writes `state.bombs`). -/
def serverPlayerTick (input : Option PlayerInput) (grid : List Nat)
    (bombs : List Bomb) (items : List Item) (dt timeFactor : ℚ) (p0 : Player) :
    Player × List Item × List Bomb :=
  let r := updatePlayerServer input grid bombs items dt timeFactor p0
  (r.1, r.2, bombs)

/-! ### Local single-process engine: MovementSystem.

This module has its own constants (`CORNER_TOLERANCE = 12`) and a 2D grid
`grid[gy][gx]`. Its collision check carries the bomb-kick side effect, so
blocking tests return the (possibly mutated) bomb list alongside the
flag. -/

def L_CORNER_TOLERANCE : ℚ := 12

/-- Math.sign -/
def ratSign (q : ℚ) : ℚ := if 0 < q then 1 else if q < 0 then -1 else 0

/-- Local-engine game state slice used by MovementSystem. -/
structure LState where
  grid : List (List Nat)
  bombs : List Bomb
deriving Repr, DecidableEq

/-- grid[gy][gx] for the local 2D grid (callers bounds-check first). -/
def lGridGet (grid : List (List Nat)) (gx gy : Int) : Nat :=
  (grid.getD gy.toNat []).getD gx.toNat 0

/-- CollisionContext minus the bomb list, which is threaded explicitly
because the kick mutates it. -/
structure LocalCtx where
  grid : List (List Nat)
  canPassSoftWalls : Bool
  canPassBombs : Bool
  canKickBombs : Bool
  currentX : ℚ
  currentY : ℚ
deriving Repr, DecidableEq

/-- The kick assignment: `bomb.vx = Math.sign(moveDir.dx) * BOMB_SLIDE_SPEED`
for a nonzero dx, and analogously vy. -/
def kickBomb (mdx mdy : ℚ) (b : Bomb) : Bomb :=
  let b1 := if mdx ≠ 0 then { b with vx := ratSign mdx * BOMB_SLIDE_SPEED } else b
  if mdy ≠ 0 then { b1 with vy := ratSign mdy * BOMB_SLIDE_SPEED } else b1

/-- The corner loop of the local `isBlocked`: walls block; a bomb on a
corner cell is skipped in ghost mode or while still overlapped from the
current position, and otherwise blocks — kicking it first when the mover
can kick, the bomb is stationary, and a move direction was supplied. -/
def lBlockedGo (ctx : LocalCtx) (moveDir : Option (ℚ × ℚ)) (bombs : List Bomb) :
    List (ℚ × ℚ) → Bool × List Bomb
  | [] => (false, bombs)
  | c :: rest =>
    let gx := Rat.floor (c.1 / TILE_SIZE)
    let gy := Rat.floor (c.2 / TILE_SIZE)
    if gx < 0 ∨ GRID_W ≤ gx ∨ gy < 0 ∨ GRID_H ≤ gy then (true, bombs)
    else
      let tile := lGridGet ctx.grid gx gy
      if tile = tWALL_HARD then (true, bombs)
      else if tile = tWALL_SOFT ∧ ¬ctx.canPassSoftWalls then (true, bombs)
      else
        match bombs.find? (fun b => decide (b.gridX = gx ∧ b.gridY = gy)) with
        | some b =>
          if ctx.canPassBombs then lBlockedGo ctx moveDir bombs rest
          else if isColliding ctx.currentX ctx.currentY gx gy then
            lBlockedGo ctx moveDir bombs rest
          else
            match moveDir with
            | some md =>
              if ctx.canKickBombs ∧ b.vx = 0 ∧ b.vy = 0 then
                (true, updateFirst (fun b2 => decide (b2.gridX = gx ∧ b2.gridY = gy))
                        (kickBomb md.1 md.2) bombs)
              else (true, bombs)
            | none => (true, bombs)
        | none => lBlockedGo ctx moveDir bombs rest

/-- Local isBlocked over the four epsilon-shrunk hitbox corners. -/
def lIsBlocked (nx ny : ℚ) (ctx : LocalCtx) (bombs : List Bomb)
    (moveDir : Option (ℚ × ℚ)) : Bool × List Bomb :=
  lBlockedGo ctx moveDir bombs (cornersOf nx ny)

/-- tryCornerSlide, x axis (no moveDir is passed to isBlocked, so the bomb
list cannot change inside it). -/
def tryCornerSlideX (p : Player) (ctx : LocalCtx) (bombs : List Bomb) : ℚ :=
  let centerY := p.y + PLAYER_SIZE / 2
  let tileY := Rat.floor (centerY / TILE_SIZE)
  let tileCenterY := (tileY : ℚ) * TILE_SIZE + TILE_SIZE / 2
  let diff := centerY - tileCenterY
  if |diff| ≤ L_CORNER_TOLERANCE ∧ 0 < |diff| then
    let dir : ℚ := if 0 < diff then -1 else 1
    let correction := dir * p.speed
    if ¬ ((lIsBlocked p.x (p.y + correction) ctx bombs none).1 = true) then correction
    else 0
  else 0

/-- tryCornerSlide, y axis. -/
def tryCornerSlideY (p : Player) (ctx : LocalCtx) (bombs : List Bomb) : ℚ :=
  let centerX := p.x + PLAYER_SIZE / 2
  let tileX := Rat.floor (centerX / TILE_SIZE)
  let tileCenterX := (tileX : ℚ) * TILE_SIZE + TILE_SIZE / 2
  let diff := centerX - tileCenterX
  if |diff| ≤ L_CORNER_TOLERANCE ∧ 0 < |diff| then
    let dir : ℚ := if 0 < diff then -1 else 1
    let correction := dir * p.speed
    if ¬ ((lIsBlocked (p.x + correction) p.y ctx bombs none).1 = true) then correction
    else 0
  else 0

/-- One corner of isPlayerStuck. `Math.hypot(a, b) < TILE_SIZE / 2` is
modelled by the equivalent squared comparison. -/
def stuckCorner (p : Player) (st : LState) (c : ℚ × ℚ) : Bool :=
  let gx := Rat.floor (c.1 / TILE_SIZE)
  let gy := Rat.floor (c.2 / TILE_SIZE)
  if gx < 0 ∨ GRID_W ≤ gx ∨ gy < 0 ∨ GRID_H ≤ gy then true
  else if lGridGet st.grid gx gy = tWALL_SOFT then true
  else
    match st.bombs.find? (fun b => decide (b.gridX = gx ∧ b.gridY = gy)) with
    | some bomb =>
      if isColliding p.x p.y gx gy then
        let playerCenterX := p.x + PLAYER_SIZE / 2
        let playerCenterY := p.y + PLAYER_SIZE / 2
        let bombCenterX := (bomb.gridX : ℚ) * TILE_SIZE + TILE_SIZE / 2
        let bombCenterY := (bomb.gridY : ℚ) * TILE_SIZE + TILE_SIZE / 2
        decide ((playerCenterX - bombCenterX) ^ 2 + (playerCenterY - bombCenterY) ^ 2
                < (TILE_SIZE / 2) ^ 2)
      else false
    | none => false

/-- isPlayerStuck: any hitbox corner sits in a SOFT wall, out of bounds, or
centre-deep inside a bomb. -/
def isPlayerStuck (p : Player) (st : LState) : Bool :=
  (cornersOf p.x p.y).any (stuckCorner p st)

/-- Goal test of the relocation BFS: an in-bounds EMPTY cell with no bomb. -/
def bfsValid (st : LState) (c : Int × Int) : Bool :=
  decide (0 ≤ c.1 ∧ c.1 < GRID_W ∧ 0 ≤ c.2 ∧ c.2 < GRID_H ∧
          lGridGet st.grid c.1 c.2 = tEMPTY ∧
          ¬ ∃ b ∈ st.bombs, b.gridX = c.1 ∧ b.gridY = c.2)

def bfsDirs : List (Int × Int) := [(0, -1), (0, 1), (-1, 0), (1, 0)]

/-- Enqueue the unvisited in-bounds neighbours of a dequeued cell, marking
them visited. -/
def bfsExpand (gx gy : Int) (queue visited : List (Int × Int)) :
    List (Int × Int) × List (Int × Int) :=
  bfsDirs.foldl
    (fun acc d =>
      let n := (gx + d.1, gy + d.2)
      if ¬ acc.2.contains n ∧ 0 ≤ n.1 ∧ n.1 < GRID_W ∧ 0 ≤ n.2 ∧ n.2 < GRID_H then
        (acc.1 ++ [n], acc.2 ++ [n])
      else acc)
    (queue, visited)

/-- The BFS while-loop of teleportToNearestEmpty. Every enqueued cell is
first added to `visited` and, except for the start cell, is in bounds, so
the source loop runs at most `GRID_W * GRID_H + 1 = 196` times; the fuel
passed at the call site is exactly that bound. -/
def bfsGo (st : LState) : Nat → List (Int × Int) → List (Int × Int) → Option (Int × Int)
  | 0, _, _ => none
  | _ + 1, [], _ => none
  | f + 1, c :: rest, visited =>
    if bfsValid st c then some c
    else
      let qv := bfsExpand c.1 c.2 rest visited
      bfsGo st f qv.1 qv.2

/-- teleportToNearestEmpty: BFS from the player's grid cell; on success the
player is moved to the found cell's pixel position, otherwise unchanged. -/
def teleportToNearestEmpty (p : Player) (st : LState) : Player :=
  let sgx := Rat.floor ((p.x + PLAYER_SIZE / 2) / TILE_SIZE)
  let sgy := Rat.floor ((p.y + PLAYER_SIZE / 2) / TILE_SIZE)
  match bfsGo st 196 [(sgx, sgy)] [(sgx, sgy)] with
  | some c =>
    let pos := getPixelCoords c.1 c.2
    { p with x := pos.1, y := pos.2 }
  | none => p

/-- updatePlayerMovement (MovementSystem): ghost-timer bookkeeping with the
stuck fix-up on the expiry tick, then axis-by-axis movement with corner
sliding; returns the player and the state with the possibly kicked bombs. -/
def updatePlayerMovement (p0 : Player) (input : PlayerInput) (st : LState)
    (dt : ℚ) : Player × LState :=
  if p0.state ≠ "NORMAL" then (p0, st)
  else
    let wasGhost := decide (0 < p0.ghostTimer)
    let p1 := if 0 < p0.ghostTimer then { p0 with ghostTimer := p0.ghostTimer - dt } else p0
    let p2 :=
      if wasGhost = true ∧ p1.ghostTimer ≤ 0 then
        (if isPlayerStuck p1 st then teleportToNearestEmpty p1 st else p1)
      else p1
    let speed := p2.speed
    let dx := if input.right then speed else if input.left then -speed else 0
    let dy := if input.down then speed else if input.up then -speed else 0
    if dx = 0 ∧ dy = 0 then (p2, st)
    else
      let ctx0 : LocalCtx :=
        { grid := st.grid, canPassSoftWalls := decide (0 < p2.ghostTimer),
          canPassBombs := decide (0 < p2.ghostTimer), canKickBombs := p2.canKick,
          currentX := p2.x, currentY := p2.y }
      let r1 :=
        if dx ≠ 0 then
          let res := lIsBlocked (p2.x + dx) p2.y ctx0 st.bombs (some (dx, 0))
          if ¬ (res.1 = true) then ({ p2 with x := p2.x + dx }, res.2)
          else
            let corr := tryCornerSlideX p2 ctx0 res.2
            (if corr ≠ 0 then { p2 with y := p2.y + corr } else p2, res.2)
        else (p2, st.bombs)
      let p3 := r1.1
      let ctx1 := { ctx0 with currentX := p3.x }
      let r2 :=
        if dy ≠ 0 then
          let res := lIsBlocked p3.x (p3.y + dy) ctx1 r1.2 (some (0, dy))
          if ¬ (res.1 = true) then ({ p3 with y := p3.y + dy }, res.2)
          else
            let corr := tryCornerSlideY p3 ctx1 res.2
            (if corr ≠ 0 then { p3 with x := p3.x + corr } else p3, res.2)
        else (p3, r1.2)
      let p4 := r2.1
      let direction :=
        if dy < 0 then "UP"
        else if 0 < dy then "DOWN"
        else if dx < 0 then "LEFT"
        else if 0 < dx then "RIGHT"
        else p4.direction
      ({ p4 with direction := direction }, { st with bombs := r2.2 })

/-! ### generateRoomCode (BubbleRoom, gameLogic.ts lines 374-381) -/

/-- The alphabet string of generateRoomCode, as its character list. -/
def roomCodeChars : List Char := "ABCDEFGHJKLMNPQRSTUVWXYZ23456789".toList

/-- generateRoomCode: four draws; the i-th call of
`Math.floor(Math.random() * chars.length)` is modelled by `r i` reduced
modulo the alphabet size, which ranges over exactly the same indices. -/
def generateRoomCode (r : Nat → Nat) : List Char :=
  (List.range 4).map (fun i => roomCodeChars.getD (r i % roomCodeChars.length) 'A')

/-! ### Concrete scenario material.

`mkTile` is the deterministic part of createInitialGrid (border plus
even-even checkerboard HARD walls, everything else EMPTY — what a zero
wallDensity produces); scenario states add SOFT walls with `gridSet`. -/

def mkTile (x y : Nat) : Nat :=
  if x = 0 ∨ x = 14 ∨ y = 0 ∨ y = 12 then tWALL_HARD
  else if x % 2 = 0 ∧ y % 2 = 0 then tWALL_HARD
  else tEMPTY

/-- Flattened 15 × 13 deterministic grid (server layout). -/
def baseGrid : List Nat := (List.range 195).map (fun i => mkTile (i % 15) (i / 15))

/-- The same grid as the local engine's 2D array. -/
def baseGrid2D : List (List Nat) :=
  (List.range 13).map (fun y => (List.range 15).map (fun x => mkTile x y))

/-- A player with the post-initializeGame base stats, parked at cell (1,1). -/
def basePlayer : Player :=
  { id := 1, x := 54, y := 54, color := "#3b82f6", state := "NORMAL",
    direction := "DOWN", speed := BASE_SPEED, bombRange := 1, maxBombs := 1,
    activeBombs := 0, score := 0, canKick := false, hasShield := false,
    ghostTimer := 0, trappedTimer := 0, invincibleTimer := 0 }

/-- The §8 bookkeeping invariant: every player's activeBombs equals the
number of live bombs owned by that player. -/
def activeBombsInvariant (st : RoomState) : Bool :=
  st.players.all (fun kv =>
    kv.2.activeBombs = (st.bombs.filter (fun b => b.ownerId == kv.2.id)).length)

/-- Local 2D grid update (scenario construction only). -/
def lGridSet (grid : List (List Nat)) (gx gy : Int) (v : Nat) : List (List Nat) :=
  grid.set gy.toNat ((grid.getD gy.toNat []).set gx.toNat v)

/-- No two bombs on the same grid cell. -/
def bombsAtDistinctCells (bombs : List Bomb) : Prop :=
  bombs.Pairwise (fun a b => (a.gridX, a.gridY) ≠ (b.gridX, b.gridY))

/-- Multiset of bomb ids still live plus ids already detonated; detonation
moves ids from the first summand to the second and never invents one. -/
def toMS (st : ExplState) : Multiset String :=
  (st.bombs.map Bomb.id : List String) + (st.detonated : Multiset String)

/-- Signed distance from the centre of a hitbox whose top/left coordinate
on one axis is `v` to the centre of the tile that centre lies in. -/
def centerOffset (v : ℚ) : ℚ :=
  let center := v + PLAYER_SIZE / 2
  center - ((Rat.floor (center / TILE_SIZE) : ℚ) * TILE_SIZE + TILE_SIZE / 2)

/-- Modelled from the amended claim text: when a move along one axis is
blocked, the perpendicular nudge is ±speed toward the nearest tile centre,
applied exactly when the centre is strictly misaligned, the misalignment is
at most the tolerance, and the nudged position is not blocked; otherwise
the offset is 0. -/
def cornerNudgeSpec (speed tol diff : ℚ) (nudgeBlocked : Bool) : ℚ :=
  if 0 < |diff| ∧ |diff| ≤ tol ∧ nudgeBlocked = false then
    (if 0 < diff then -1 else 1) * speed
  else 0

/-! ### Concrete scenario data for the claims -/

/-- An all-false input frame. -/
def noKeys : PlayerInput := { up := false, down := false, left := false, right := false }

/-- C1: a range-3 bomb at (2,5) facing a SOFT wall at (3,5); the bomb has
already been spliced out of the live list, as updateBombs does before
calling triggerExplosion. -/
def c1Bomb : Bomb := mkBombSchema "A" 1 2 5 3
def c1St : ExplState :=
  { grid := gridSet baseGrid 3 5 tWALL_SOFT, bombs := [], newExplosions := [], detonated := [] }

/-- C2/C3: two bombs two cells apart with overlapping rays. -/
def c3A : Bomb := mkBombSchema "A" 1 3 5 2
def c3B : Bomb := mkBombSchema "B" 2 5 5 2
def c3St : ExplState :=
  { grid := baseGrid, bombs := [c3B], newExplosions := [], detonated := [] }

def c2A : Bomb := { mkBombSchema "A" 1 3 5 2 with timer := 10 }
def c2B : Bomb := mkBombSchema "B" 1 5 5 2
def c2P : Player := { basePlayer with activeBombs := 2, maxBombs := 3 }
def c2St : RoomState :=
  { phase := "PLAYING", gameMode := "PVP", players := [("s1", c2P)],
    bombs := [c2A, c2B], explosions := [], enemiesCount := 0,
    grid := baseGrid, items := [] }

/-- C5 (server): ghost timer about to expire while the whole hitbox sits in
the SOFT wall cell (3,5). -/
def c5Grid : List Nat := gridSet baseGrid 3 5 tWALL_SOFT
def c5P : Player := { basePlayer with x := 150, y := 246, ghostTimer := 10 }

/-- C5 (local engine): the same situation on the 2D grid. -/
def c5LSt : LState := { grid := lGridSet baseGrid2D 3 5 tWALL_SOFT, bombs := [] }
def c5LP : Player := { basePlayer with x := 150, y := 246, ghostTimer := 10 }

/-- C6: a kick-capable player flush against a stationary bomb at (2,1). -/
def c6Bomb : Bomb := mkBombSchema "K" 0 2 1 1
def c6P : Player := { basePlayer with x := 60, y := 54, canKick := true }
def c6In : PlayerInput := { up := false, down := false, left := false, right := true }
def c6Ctx : LocalCtx :=
  { grid := baseGrid2D, canPassSoftWalls := false, canPassBombs := false,
    canKickBombs := true, currentX := 60, currentY := 54 }
/-- A bomb already sliding (for the no-rekick part of C6). -/
def c6Moving : Bomb := { mkBombSchema "M" 0 2 1 1 with vx := 6 }

/-- C7: a room whose player stands on the cell of an existing bomb. -/
def c7P : Player := { basePlayer with x := 54, y := 54, activeBombs := 1, maxBombs := 2 }
def c7Bomb : Bomb := mkBombSchema "P" 1 1 1 1
def c7Room : Room :=
  { state := { phase := "PLAYING", gameMode := "PVP", players := [("s1", c7P)],
               bombs := [c7Bomb], explosions := [], enemiesCount := 0,
               grid := baseGrid, items := [] },
    playerInputs := [("s1", noKeys)] }

/-- C10: a COUNTDOWN-phase room holding an input buffer. -/
def c10Room : Room :=
  { state := { phase := "COUNTDOWN", gameMode := "PVP", players := [("s1", basePlayer)],
               bombs := [], explosions := [], enemiesCount := 0,
               grid := baseGrid, items := [] },
    playerInputs := [("s1", noKeys)] }
def c10In : PlayerInput := { up := false, down := false, left := true, right := false }

/-! ## Theorems -/

/-- C4: damage is resolved by a single funnel — a shield is consumed with
1000 ms invincibility and no life-state change; otherwise NORMAL becomes
TRAPPED with trappedTimer 5000 ms and 1000 ms invincibility; otherwise a
TRAPPED player whose invincibleTimer is not positive becomes DEAD. The
code's funnel coincides with the claim's, stated as `hurtSpec`. -/
theorem damage_single_funnel (p : Player) : damagePlayer p = hurtSpec p := by
  simp only [damagePlayer, hurtSpec, TRAPPED_DURATION_MS, not_lt]

/-- C9 counterexample: the room-code alphabet has 32 characters, not the
claimed 31 (24 letters without O/I plus the 8 digits 2-9). -/
theorem roomCode_alphabet_size_cex :
    roomCodeChars.length = 32 ∧ ¬ roomCodeChars.length = 31 := by decide

/-- C9 (amended): every generated room code has exactly four characters,
each drawn from the 32-character alphabet, which contains none of
0, O, 1, I. -/
theorem roomCode_format (r : Nat → Nat) :
    (generateRoomCode r).length = 4 ∧
    (∀ ch ∈ generateRoomCode r, ch ∈ roomCodeChars) ∧
    roomCodeChars.length = 32 ∧
    ('0' ∉ roomCodeChars ∧ 'O' ∉ roomCodeChars ∧ '1' ∉ roomCodeChars ∧ 'I' ∉ roomCodeChars) := by
  refine ⟨by simp [generateRoomCode], ?_, by decide, by decide⟩
  intro ch hch
  simp only [generateRoomCode, List.mem_map, List.mem_range] at hch
  obtain ⟨i, -, hi⟩ := hch
  have hlt : r i % roomCodeChars.length < roomCodeChars.length :=
    Nat.mod_lt _ (by decide)
  rw [List.getD_eq_getElem roomCodeChars 'A' hlt] at hi
  exact hi ▸ List.getElem_mem hlt

/-- Witness for C9: a concrete draw sequence yields a 4-character code and
its first character is in the alphabet. -/
theorem roomCode_format_witness :
    (generateRoomCode (fun _ => 0)).length = 4 ∧ 'A' ∈ roomCodeChars :=
  ⟨(roomCode_format (fun _ => 0)).1,
   (roomCode_format (fun _ => 0)).2.1 'A' (by decide)⟩

/-- C10: while the phase is not PLAYING, an input message and a bomb
message leave the whole room — including the stored input buffers —
unchanged; keys reported outside PLAYING are discarded, not buffered. -/
theorem nonPlaying_messages_ignored (newId sessionId : String) (data : PlayerInput)
    (room : Room) (h : room.state.phase ≠ "PLAYING") :
    handleInput sessionId data room = room ∧ handleBomb newId sessionId room = room := by
  constructor
  · simp [handleInput, h]
  · simp [handleBomb, h]

/-- Witness for C10: movement keys sent to a COUNTDOWN room change nothing. -/
theorem nonPlaying_messages_ignored_witness :
    handleInput "s1" c10In c10Room = c10Room ∧ handleBomb "b1" "s1" c10Room = c10Room :=
  nonPlaying_messages_ignored "b1" "s1" c10In c10Room (by decide)

/-- C1 counterexample: when the eastward ray of the bomb at (2,5) hits the
SOFT wall at (3,5), the code does emit an explosion cell on that tile
(gameLogic.ts line 281), contradicting the claim that none is emitted. -/
theorem softWall_ray_emits_cell_cex :
    gridGet c1St.grid 3 5 = tWALL_SOFT ∧
    (triggerExplosion c1Bomb c1St).newExplosions.countP
      (fun e => decide (e.gridX = 3 ∧ e.gridY = 5)) = 1 := by decide

/-- C1 (amended): the SOFT wall cell becomes EMPTY and the ray stops there,
but an explosion cell is emitted on the destroyed wall's tile; no explosion
cell appears beyond it (at (4,5) or (5,5)), so an entity on the EMPTY cell
beyond takes no damage from this detonation. -/
theorem softWall_ray_behavior :
    gridGet (triggerExplosion c1Bomb c1St).grid 3 5 = tEMPTY ∧
    (triggerExplosion c1Bomb c1St).newExplosions.countP
      (fun e => decide (e.gridX = 3 ∧ e.gridY = 5)) = 1 ∧
    (triggerExplosion c1Bomb c1St).newExplosions.countP
      (fun e => decide (e.gridX = 4 ∧ e.gridY = 5)) = 0 ∧
    (triggerExplosion c1Bomb c1St).newExplosions.countP
      (fun e => decide (e.gridX = 5 ∧ e.gridY = 5)) = 0 ∧
    (triggerExplosion c1Bomb c1St).newExplosions =
      [mkExplosion 1 2 5, mkExplosion 1 1 5, mkExplosion 1 3 5] := by decide

/-- C2: the activeBombs bookkeeping invariant holds before the tick but is
broken by a chain detonation — the chained bomb is spliced out inside
triggerExplosion (gameLogic.ts line 290) without decrementing its owner, so
after the tick player 1 has activeBombs = 1 while owning 0 live bombs. -/
theorem activeBombs_chain_bug :
    activeBombsInvariant c2St = true ∧
    (updateBombs 16 1 c2St).bombs = [] ∧
    (updateBombs 16 1 c2St).players.map (fun kv => kv.2.activeBombs) = [1] ∧
    activeBombsInvariant (updateBombs 16 1 c2St) = false := by
  with_unfolding_all decide

/-- C3 counterexample: in the chain detonation of the bombs at (3,5) and
(5,5), the shared cell (4,5) receives two explosion cells (one from each
bomb's ray), contradicting "exactly one explosion cell per grid cell". -/
theorem chain_duplicate_cells_cex :
    (triggerExplosion c3A c3St).newExplosions.countP
      (fun e => decide (e.gridX = 4 ∧ e.gridY = 5)) = 2 := by decide

/-- C5 counterexample: a player whose ghost timer expires this tick while
every hitbox corner sits inside the SOFT wall cell (3,5) is left exactly
where they are by the server's per-player update — the authoritative
`updatePlayers` has no stuck check and no BFS relocation, so no relocation
happens within one tick (or ever). -/
theorem ghost_expiry_server_no_relocation_cex :
    gridGet c5Grid 3 5 = tWALL_SOFT ∧
    0 < c5P.ghostTimer ∧
    (cornersOf c5P.x c5P.y).all
      (fun c => decide (Rat.floor (c.1 / TILE_SIZE) = 3 ∧ Rat.floor (c.2 / TILE_SIZE) = 5)) = true ∧
    (updatePlayerServer (some noKeys) c5Grid [] [] 16 1 c5P).1.ghostTimer ≤ 0 ∧
    (updatePlayerServer (some noKeys) c5Grid [] [] 16 1 c5P).1.x = c5P.x ∧
    (updatePlayerServer (some noKeys) c5Grid [] [] 16 1 c5P).1.y = c5P.y := by
  refine ⟨?_, ?_, ?_, ?_, ?_, ?_⟩ <;> with_unfolding_all decide

/-- C6 counterexample: a kick-capable player walking right into a
stationary bomb is blocked, and the authoritative server movement step
returns the bomb list unchanged — the bomb's velocity stays 0 instead of
becoming sign(dx)·KICK_SPEED. -/
theorem server_movement_no_kick_cex :
    c6P.canKick = true ∧ c6Bomb.vx = 0 ∧ c6Bomb.vy = 0 ∧
    isEntityBlocked (c6P.x + c6P.speed * 1) c6P.y baseGrid [c6Bomb] false = true ∧
    (serverPlayerTick (some c6In) baseGrid [c6Bomb] [] 16 1 c6P).2.2 = [c6Bomb] ∧
    (serverPlayerTick (some c6In) baseGrid [c6Bomb] [] 16 1 c6P).1.x = c6P.x := by
  refine ⟨?_, ?_, ?_, ?_, rfl, ?_⟩ <;> with_unfolding_all decide

/-- C8 counterexample: the server's corner tolerance is 15 px, not 12: with
a rightward move blocked and a vertical misalignment of 14 px the code
still applies the perpendicular nudge (newY = 68 - speed = 65), while the
claim (tolerance 12) says no nudge may occur. -/
theorem corner_tolerance_cex :
    CORNER_TOLERANCE = 15 ∧
    isEntityBlocked (58 + 3) 68 baseGrid [] false = true ∧
    |centerOffset 68| = 14 ∧ ¬ |centerOffset 68| ≤ 12 ∧
    moveXAxis 3 false baseGrid [] 58 68 3 = (58, 65) := by
  refine ⟨?_, ?_, ?_, ?_, ?_⟩ <;> with_unfolding_all decide

/-- C7: a bomb request while the phase is not PLAYING, or from a player
whose state is not NORMAL (TRAPPED or DEAD), or who has reached maxBombs,
or whose cell already holds a bomb, leaves the room unchanged (nothing is
sent back — handleBomb only returns); and handleBomb preserves the
one-bomb-per-cell invariant. -/
theorem handleBomb_invalid_rejected (newId sessionId : String) (room : Room) :
    (room.state.phase ≠ "PLAYING" → handleBomb newId sessionId room = room) ∧
    (∀ kv, room.state.players.find? (fun kv2 => kv2.1 = sessionId) = some kv →
      (kv.2.state = "TRAPPED" ∨ kv.2.state = "DEAD" ∨
       kv.2.maxBombs ≤ kv.2.activeBombs ∨
       room.state.bombs.any (fun b =>
         decide (b.gridX = (getGridCoords kv.2.x kv.2.y).1 ∧
                 b.gridY = (getGridCoords kv.2.x kv.2.y).2)) = true) →
      handleBomb newId sessionId room = room) ∧
    (bombsAtDistinctCells room.state.bombs →
     bombsAtDistinctCells (handleBomb newId sessionId room).state.bombs) := by
  refine ⟨?_, ?_, ?_⟩
  · intro h
    simp [handleBomb, h]
  · intro kv hfind hcond
    by_cases hp : room.state.phase ≠ "PLAYING"
    · simp [handleBomb, hp]
    · rcases hcond with h | h | h | h
      · have hne : kv.2.state ≠ "NORMAL" := by rw [h]; decide
        simp [handleBomb, hp, hfind, hne]
      · have hne : kv.2.state ≠ "NORMAL" := by rw [h]; decide
        simp [handleBomb, hp, hfind, hne]
      · simp [handleBomb, hp, hfind, h]
      · simp [handleBomb, hp, hfind]
        intro h1 h2 hno
        exfalso
        simp only [List.any_eq_true, decide_eq_true_eq] at h
        obtain ⟨b, hb, hbx, hby⟩ := h
        exact hno b hb hbx hby
  · intro hpair
    unfold handleBomb
    split
    · exact hpair
    · split
      · exact hpair
      · rename_i kv hfind
        dsimp only
        split
        · exact hpair
        · split
          · exact hpair
          · split
            · exact hpair
            · rename_i hany
              simp only [bombsAtDistinctCells] at hpair ⊢
              rw [List.pairwise_append]
              refine ⟨hpair, List.pairwise_singleton _ _, ?_⟩
              intro a ha b hb
              simp only [List.mem_singleton] at hb
              subst hb
              have hall : ∀ x ∈ room.state.bombs,
                  ¬(x.gridX = (getGridCoords kv.2.x kv.2.y).1 ∧
                    x.gridY = (getGridCoords kv.2.x kv.2.y).2) := by
                simpa [List.any_eq_true] using hany
              simp only [mkBombSchema, ne_eq, Prod.mk.injEq, not_and]
              intro h1 h2
              exact hall a ha ⟨h1, h2⟩

/-- C8 (amended): the corner-slide tolerance is CORNER_TOLERANCE = 15 px
(not 12), and when motion along one axis is blocked, the perpendicular
nudge of ±speed toward the nearest tile centre is applied exactly when the
centre is strictly misaligned by at most 15 px and the nudged position is
not blocked — `cornerNudgeSpec` is that amended wording. -/
theorem corner_slide_characterization :
    CORNER_TOLERANCE = 15 ∧
    (∀ speed ghost grid bombs cx cy dx, dx ≠ 0 →
      isEntityBlocked (cx + dx) cy grid bombs ghost = true →
      moveXAxis speed ghost grid bombs cx cy dx =
        (cx, cy + cornerNudgeSpec speed CORNER_TOLERANCE (centerOffset cy)
          (isEntityBlocked cx (cy + (if 0 < centerOffset cy then -1 else 1) * speed) grid bombs ghost))) ∧
    (∀ speed ghost grid bombs newX currentY newY dy, dy ≠ 0 →
      isEntityBlocked newX (currentY + dy) grid bombs ghost = true →
      moveYAxis speed ghost grid bombs newX currentY newY dy =
        (newX + cornerNudgeSpec speed CORNER_TOLERANCE (centerOffset newX)
          (isEntityBlocked (newX + (if 0 < centerOffset newX then -1 else 1) * speed) currentY grid bombs ghost),
         newY)) := by
  refine ⟨rfl, ?_, ?_⟩
  · intro speed ghost grid bombs cx cy dx hdx hblk
    simp only [moveXAxis, centerOffset, cornerNudgeSpec, hdx, hblk, Bool.not_eq_true,
      if_true, ite_true, not_true, ite_false, if_neg, Bool.true_eq_false]
    split_ifs <;> first | rfl | simp_all
  · intro speed ghost grid bombs newX currentY newY dy hdy hblk
    simp only [moveYAxis, centerOffset, cornerNudgeSpec, hdy, hblk, Bool.not_eq_true,
      if_true, ite_true, not_true, ite_false, if_neg, Bool.true_eq_false]
    split_ifs <;> first | rfl | simp_all

/-- Any cell the relocation BFS returns satisfies its goal test. -/
theorem bfsGo_valid (st : LState) :
    ∀ f q v c, bfsGo st f q v = some c → bfsValid st c = true := by
  intro f
  induction f with
  | zero => intro q v c h; simp [bfsGo] at h
  | succ f ih =>
    intro q v c h
    match q with
    | [] => simp [bfsGo] at h
    | hd :: tl =>
      simp only [bfsGo] at h
      by_cases hv : bfsValid st hd = true
      · rw [if_pos hv] at h
        cases h
        exact hv
      · rw [if_neg hv] at h
        exact ih _ _ _ h

/-- C5 (amended): only the local engine performs the ghost-expiry fix-up.
In `updatePlayerMovement`, on the tick where ghostTimer crosses 0, a stuck
player (hitbox corner in a SOFT wall or centre-deep in a bomb) is
teleported, within that same call, to the cell found by BFS from their
grid cell — a cell that is EMPTY and holds no bomb. The server's
updatePlayers has no such fix-up (see the counterexample). -/
theorem ghost_expiry_local_relocation (p : Player) (st : LState) (dt : ℚ) (c : Int × Int)
    (hstate : p.state = "NORMAL")
    (hghost : 0 < p.ghostTimer)
    (hexp : p.ghostTimer - dt ≤ 0)
    (hstuck : isPlayerStuck { p with ghostTimer := p.ghostTimer - dt } st = true)
    (hbfs : bfsGo st 196
        [(Rat.floor ((p.x + PLAYER_SIZE / 2) / TILE_SIZE),
          Rat.floor ((p.y + PLAYER_SIZE / 2) / TILE_SIZE))]
        [(Rat.floor ((p.x + PLAYER_SIZE / 2) / TILE_SIZE),
          Rat.floor ((p.y + PLAYER_SIZE / 2) / TILE_SIZE))] = some c) :
    (updatePlayerMovement p noKeys st dt).1.x = (getPixelCoords c.1 c.2).1 ∧
    (updatePlayerMovement p noKeys st dt).1.y = (getPixelCoords c.1 c.2).2 ∧
    lGridGet st.grid c.1 c.2 = tEMPTY ∧
    ∀ b ∈ st.bombs, ¬ (b.gridX = c.1 ∧ b.gridY = c.2) := by
  have hval := bfsGo_valid st 196 _ _ c hbfs
  rw [bfsValid] at hval
  have hprops := of_decide_eq_true hval
  obtain ⟨-, -, -, -, hempty, hnobomb⟩ := hprops
  have hmv : (updatePlayerMovement p noKeys st dt).1 =
      { p with ghostTimer := p.ghostTimer - dt,
               x := (getPixelCoords c.1 c.2).1, y := (getPixelCoords c.1 c.2).2 } := by
    have hstuck2 := hstuck
    rw [hstate] at hstuck2
    simp only [updatePlayerMovement, teleportToNearestEmpty, noKeys, hstate, hghost, hexp,
      if_pos, if_neg, decide_eq_true_eq, not_true, not_false_iff, ite_true, ite_false]
    simp [hghost, hexp, hstuck2, hbfs]
  refine ⟨by rw [hmv], by rw [hmv], hempty, ?_⟩
  intro b hb hcontra
  exact hnobomb ⟨b, hb, hcontra⟩


/-- C6 (amended): bombs are kicked only by the local engine. The server
movement step returns the bomb list untouched (updatePlayers never writes
state.bombs); in the local collision check a kick-capable player moving
into a stationary, non-overlapped bomb sets its velocity to
sign(moveDir)·BOMB_SLIDE_SPEED and is blocked, and a bomb already in
motion is never re-kicked. -/
theorem kick_only_in_local_engine :
    (∀ inp grid bombs items dt tf p,
        (serverPlayerTick inp grid bombs items dt tf p).2.2 = bombs) ∧
    (∀ ctx moveDir bombs corners, (∀ b ∈ bombs, b.vx ≠ 0 ∨ b.vy ≠ 0) →
        (lBlockedGo ctx moveDir bombs corners).2 = bombs) ∧
    (∀ (ctx : LocalCtx) (mdx mdy nx ny : ℚ) (bombs : List Bomb)
        (rest : List (ℚ × ℚ)) (b : Bomb),
        ctx.canKickBombs = true → ctx.canPassBombs = false →
        ¬ (Rat.floor (nx / TILE_SIZE) < 0 ∨ GRID_W ≤ Rat.floor (nx / TILE_SIZE) ∨
           Rat.floor (ny / TILE_SIZE) < 0 ∨ GRID_H ≤ Rat.floor (ny / TILE_SIZE)) →
        lGridGet ctx.grid (Rat.floor (nx / TILE_SIZE)) (Rat.floor (ny / TILE_SIZE)) = tEMPTY →
        bombs.find? (fun b2 => decide (b2.gridX = Rat.floor (nx / TILE_SIZE) ∧
          b2.gridY = Rat.floor (ny / TILE_SIZE))) = some b →
        isColliding ctx.currentX ctx.currentY (Rat.floor (nx / TILE_SIZE))
          (Rat.floor (ny / TILE_SIZE)) = false →
        b.vx = 0 → b.vy = 0 →
        lBlockedGo ctx (some (mdx, mdy)) bombs ((nx, ny) :: rest) =
          (true, updateFirst (fun b2 => decide (b2.gridX = Rat.floor (nx / TILE_SIZE) ∧
            b2.gridY = Rat.floor (ny / TILE_SIZE))) (kickBomb mdx mdy) bombs)) ∧
    (∀ (mdx : ℚ) (b : Bomb), mdx ≠ 0 →
        kickBomb mdx 0 b = { b with vx := ratSign mdx * BOMB_SLIDE_SPEED }) := by
  refine ⟨?_, ?_, ?_, ?_⟩
  · intro inp grid bombs items dt tf p
    rfl
  · intro ctx moveDir bombs corners hmove
    induction corners with
    | nil => rfl
    | cons hd tl ih =>
      simp only [lBlockedGo]
      split
      · rfl
      · split
        · rfl
        · split
          · rfl
          · split
            · rename_i b hfind
              split
              · exact ih
              · split
                · exact ih
                · split
                  · rename_i md
                    rw [if_neg]
                    intro hcon
                    have hmem : b ∈ bombs := List.mem_of_find?_eq_some hfind
                    rcases hmove b hmem with hv | hv
                    · exact hv hcon.2.1
                    · exact hv hcon.2.2
                  · rfl
            · exact ih
  · intro ctx mdx mdy nx ny bombs rest b hk hpass hbounds hempty hfind hcol hvx hvy
    simp only [lBlockedGo, if_neg hbounds]
    have hfind2 : List.find? (fun b2 => decide (b2.gridX = Rat.floor (nx / TILE_SIZE)) &&
        decide (b2.gridY = Rat.floor (ny / TILE_SIZE))) bombs = some b := by
      simpa [Bool.decide_and] using hfind
    simp [hempty, hfind2, hk, hpass, hcol, hvx, hvy, tEMPTY, tWALL_HARD, tWALL_SOFT]
  · intro mdx b h
    simp [kickBomb, h]


/-- extractFirst returns a permutation decomposition of its input. -/
theorem extractFirst_perm {α : Type} (p : α → Bool) :
    ∀ (l : List α) b rest, extractFirst p l = some (b, rest) → l.Perm (b :: rest) := by
  intro l
  induction l with
  | nil => intro b rest h; simp [extractFirst] at h
  | cons hd tl ih =>
    intro b rest h
    simp only [extractFirst] at h
    by_cases hp : p hd
    · rw [if_pos hp] at h
      simp only [Option.some.injEq, Prod.mk.injEq] at h
      obtain ⟨h1, h2⟩ := h
      subst h1; subst h2
      exact List.Perm.refl _
    · rw [if_neg hp] at h
      cases hext : extractFirst p tl with
      | none => rw [hext] at h; simp at h
      | some r =>
        rw [hext] at h
        simp only [Option.map, Option.some.injEq, Prod.mk.injEq] at h
        obtain ⟨h1, h2⟩ := h
        subst h1
        subst h2
        have htl := ih r.1 r.2 hext
        exact (htl.cons hd).trans (List.Perm.swap r.1 hd r.2)

/-- Emitting an explosion cell does not change the id measure. -/
theorem toMS_pushExpl (o gx gy : Int) (st : ExplState) :
    toMS (pushExpl o gx gy st) = toMS st := by
  simp [toMS, pushExpl]

/-- A ray never increases the id measure: every id added to `detonated`
comes from a bomb removed from the live list. -/
theorem rayGo_toMS (chain : Bomb → ExplState → ExplState)
    (H : ∀ b st, toMS (chain b st) ≤ b.id ::ₘ toMS st) (bomb : Bomb) (dx dy : Int) :
    ∀ (steps : Nat) (i : Int) (st : ExplState),
      toMS (rayGo chain bomb dx dy i steps st) ≤ toMS st := by
  intro steps
  induction steps with
  | zero => intro i st; exact le_refl (toMS st)
  | succ steps ih =>
    intro i st
    rw [rayGo]
    dsimp only
    split
    · exact le_refl _
    · split
      · exact le_refl _
      · split
        · exact le_of_eq (toMS_pushExpl _ _ _ _)
        · refine le_trans (ih _ _) ?_
          rw [toMS_pushExpl]
          cases hext : extractFirst
              (fun b => decide (b.gridX = bomb.gridX + dx * i ∧ b.gridY = bomb.gridY + dy * i))
              st.bombs with
          | none => simp only [hext]; exact le_refl _
          | some r =>
            simp only [hext]
            refine le_trans (H r.1 _) (le_of_eq ?_)
            have hperm := extractFirst_perm _ st.bombs r.1 r.2 hext
            have hmap : (↑(st.bombs.map Bomb.id) : Multiset String) =
                r.1.id ::ₘ ↑(r.2.map Bomb.id) := by
              rw [Multiset.cons_coe]
              exact Quot.sound (hperm.map Bomb.id)
            show r.1.id ::ₘ toMS { st with bombs := r.2 } = toMS st
            simp only [toMS]
            rw [hmap, Multiset.cons_add]

/-- A detonation adds exactly the entered bomb's id to the measure. -/
theorem explodeGo_toMS :
    ∀ (f : Nat) (bomb : Bomb) (st : ExplState),
      toMS (explodeGo f bomb st) ≤ bomb.id ::ₘ toMS st := by
  intro f
  induction f with
  | zero =>
    intro bomb st
    exact Multiset.le_cons_self (toMS st) bomb.id
  | succ f ih =>
    intro bomb st
    rw [explodeGo]
    have h1 : toMS (pushExpl bomb.ownerId bomb.gridX bomb.gridY
        { st with detonated := st.detonated ++ [bomb.id] }) = bomb.id ::ₘ toMS st := by
      simp only [toMS, pushExpl]
      show (↑(st.bombs.map Bomb.id) : Multiset String) + ↑(st.detonated ++ [bomb.id]) =
        bomb.id ::ₘ ((↑(st.bombs.map Bomb.id) : Multiset String) + ↑st.detonated)
      rw [Multiset.coe_add, Multiset.coe_add, Multiset.cons_coe, ← List.append_assoc]
      exact Multiset.coe_eq_coe.2 (List.perm_append_singleton _ _)
    have R := rayGo_toMS (explodeGo f) ih bomb
    exact le_trans (R _ _ _ _ _)
      (le_trans (R _ _ _ _ _)
        (le_trans (R _ _ _ _ _) (le_trans (R _ _ _ _ _) (le_of_eq h1))))

/-- C3 (amended): when the ids of the exploding bomb and the live list are
pairwise distinct, no bomb is detonated twice in a chain — a bomb is
spliced out of the live list before `triggerExplosion` recurses into it,
so re-entry is impossible (the removal plays the role of the visited-set);
duplicate explosion cells on one grid cell do occur (see counterexample). -/
theorem chain_detonation_no_reentry (bomb : Bomb) (grid : List Nat) (bombs : List Bomb)
    (h : (bomb.id :: bombs.map Bomb.id).Nodup) :
    (triggerExplosion bomb ⟨grid, bombs, [], []⟩).detonated.Nodup := by
  have hle := explodeGo_toMS (bombs.length + 1) bomb ⟨grid, bombs, [], []⟩
  have h0 : toMS ⟨grid, bombs, [], []⟩ = ↑(bombs.map Bomb.id) := by
    simp [toMS]
  rw [h0] at hle
  have hsub : (↑((triggerExplosion bomb ⟨grid, bombs, [], []⟩).detonated) : Multiset String) ≤
      bomb.id ::ₘ ↑(bombs.map Bomb.id) :=
    le_trans (self_le_add_left _ _) hle
  have hnd : (bomb.id ::ₘ (↑(bombs.map Bomb.id) : Multiset String)).Nodup := by
    rw [Multiset.cons_coe]
    exact (Multiset.coe_nodup).2 h
  exact (Multiset.coe_nodup).1 (Multiset.nodup_of_le hsub hnd)

/-- Witness for C7: the request of a player standing on their own bomb's
cell is rejected, and the distinct-cells invariant persists. -/
theorem handleBomb_invalid_rejected_witness :
    handleBomb "b2" "s1" c7Room = c7Room ∧
    bombsAtDistinctCells (handleBomb "b2" "s1" c7Room).state.bombs :=
  ⟨(handleBomb_invalid_rejected "b2" "s1" c7Room).2.1 ("s1", c7P)
      (by with_unfolding_all decide)
      (Or.inr (Or.inr (Or.inr (by with_unfolding_all decide)))),
   (handleBomb_invalid_rejected "b2" "s1" c7Room).2.2
      (by simp [bombsAtDistinctCells, c7Room])⟩

/-- Witness for C8: the characterization applied to the blocked rightward
move at 14 px misalignment. -/
theorem corner_slide_characterization_witness :
    moveXAxis 3 false baseGrid [] 58 68 3 =
      (58, 68 + cornerNudgeSpec 3 CORNER_TOLERANCE (centerOffset 68)
        (isEntityBlocked 58 (68 + (if 0 < centerOffset 68 then -1 else 1) * 3)
          baseGrid [] false)) :=
  corner_slide_characterization.2.1 3 false baseGrid [] 58 68 3 (by norm_num)
    (by with_unfolding_all decide)

/-- Witness for C5: the ghost player stuck in the SOFT wall at (3,5) is
relocated by the local engine to (3,4), an EMPTY bomb-free cell. -/
theorem ghost_expiry_local_relocation_witness :
    (updatePlayerMovement c5LP noKeys c5LSt 16).1.x = (getPixelCoords 3 4).1 ∧
    (updatePlayerMovement c5LP noKeys c5LSt 16).1.y = (getPixelCoords 3 4).2 ∧
    lGridGet c5LSt.grid 3 4 = tEMPTY ∧
    ∀ b ∈ c5LSt.bombs, ¬ (b.gridX = 3 ∧ b.gridY = 4) :=
  ghost_expiry_local_relocation c5LP c5LSt 16 (3, 4) rfl
    (by with_unfolding_all decide) (by with_unfolding_all decide)
    (by with_unfolding_all decide) (by with_unfolding_all decide)

/-- Witness for C6: the server tick passes the bomb list through; a moving
bomb is not re-kicked; the stationary bomb at (2,1) is kicked with vx = 6
by the local collision check. -/
theorem kick_only_in_local_engine_witness :
    (serverPlayerTick (some c6In) baseGrid [c6Bomb] [] 16 1 c6P).2.2 = [c6Bomb] ∧
    (lBlockedGo c6Ctx (some ((3:ℚ)/2, 0)) [c6Moving] (cornersOf (123/2) 54)).2 = [c6Moving] ∧
    lBlockedGo c6Ctx (some ((3:ℚ)/2, 0)) [c6Bomb] [(97, 54)] =
      (true, updateFirst (fun b2 => decide (b2.gridX = Rat.floor ((97:ℚ) / TILE_SIZE) ∧
        b2.gridY = Rat.floor ((54:ℚ) / TILE_SIZE))) (kickBomb (3/2) 0) [c6Bomb]) ∧
    kickBomb (3/2) 0 c6Bomb = { c6Bomb with vx := ratSign (3/2) * BOMB_SLIDE_SPEED } :=
  ⟨kick_only_in_local_engine.1 (some c6In) baseGrid [c6Bomb] [] 16 1 c6P,
   kick_only_in_local_engine.2.1 c6Ctx (some ((3:ℚ)/2, 0)) [c6Moving]
     (cornersOf (123/2) 54) (by with_unfolding_all decide),
   kick_only_in_local_engine.2.2.1 c6Ctx (3/2) 0 97 54 [c6Bomb] [] c6Bomb
     rfl rfl (by with_unfolding_all decide) (by with_unfolding_all decide)
     (List.find?_cons_of_pos _ (by with_unfolding_all decide))
     (by with_unfolding_all decide) rfl rfl,
   kick_only_in_local_engine.2.2.2 (3/2) c6Bomb (by norm_num)⟩

/-- Witness for C3: the two-bomb chain with distinct ids detonates each
bomb exactly once. -/
theorem chain_detonation_no_reentry_witness :
    (c3A.id :: [c3B].map Bomb.id).Nodup ∧
    (triggerExplosion c3A ⟨baseGrid, [c3B], [], []⟩).detonated.Nodup :=
  ⟨by decide, chain_detonation_no_reentry c3A baseGrid [c3B] (by decide)⟩

end Bubble
